import Mathlib

/-!
Verification of the Svelte `useChat` session state machine from
`packages/core/svelte/use-chat.ts`.

The file shallowly embeds the observable state of one chat session (the
`messages`, `streamData`, `loading`, `error` and `input` writables, the
`abortController` variable and the module-level `store` map) and the
operations `useChat` builds on it (`mutate`, `triggerRequest`, `append`,
`reload`, `stop`, `setMessages`), plus the outgoing payload projection of
`getStreamedResponse`.

The transport helpers `callChatApi` and `processChatStream` are imported
from `../shared` and their sources are not part of this development; their
observable effect on the session (mid-stream `onUpdate` calls, the
`restoreMessagesOnFailure` callback fired on non-abort failures, and the
final outcome of the exchange) is modelled from the specification, as noted
on the definitions concerned.
-/

namespace UseChat

/-- A chat message, from `shared/types`: identity, role, textual content,
optional structured function/tool fields and an optional creation
timestamp.  The `function_call` and `tool_calls` values are opaque JSON for
this development, modelled as strings; `id = ""` models an absent id (the
falsy check `!message.id` in `append`). -/
structure Message where
  id : String
  role : String
  content : String
  name : Option String := none
  function_call : Option String := none
  tool_calls : Option String := none
  tool_call_id : Option String := none
  createdAt : Option Nat := none
deriving DecidableEq, Repr

/-- An opaque JSON value of the auxiliary `streamData` list, modelled as a
string. -/
abbrev JSONValue := String

/-- A JavaScript error value: its `name` (an `AbortError` is recognised by
`err.name === 'AbortError'`) and its message.  Modelled from the spec: the
error kinds raised by the missing transport code (ParseError, AbortError,
TransportError, ToolExecutionError) are all `Error` instances. -/
structure Err where
  name : String
  message : String
deriving DecidableEq, Repr

/-- The request handed to `triggerRequest`: the message history plus the
passthrough option fields of `ChatRequest` (opaque for this development). -/
structure ChatRequest where
  messages : List Message
  options : Option String := none
  functions : Option String := none
  function_call : Option String := none
  tools : Option String := none
  tool_choice : Option String := none
deriving DecidableEq, Repr

/-- The `ChatRequestOptions` argument of `append` and `reload`. -/
structure ChatRequestOptions where
  options : Option String := none
  functions : Option String := none
  function_call : Option String := none
  tools : Option String := none
  tool_choice : Option String := none
deriving DecidableEq, Repr

/-- The module-level `store: Record<string, Message[] | undefined>`,
keyed by the `"api|chatId"` string, as an association list. -/
abbrev Store := List (String × List Message)

/-- Assignment `store[key] = data` on the association-list model. -/
def storeSet (st : Store) (k : String) (v : List Message) : Store :=
  (k, v) :: st.filter (fun p => p.1 ≠ k)

/-- Lookup `store[key]` on the association-list model. -/
def storeGet (st : Store) (k : String) : Option (List Message) :=
  (st.find? (fun p => p.1 = k)).map (fun p => p.2)

/-- The observable state of one `useChat` session: the four writables the
helpers expose (`messages`, `streamData`, `loading`, `error`), the `input`
writable, the `abortController` variable (identified by a numeric handle,
`none` when null), and the session's view of the module-level `store`.
`abortedCtrls` records every handle on which `.abort()` has been called, so
that cancellation of a transport operation is observable in the model. -/
structure SessionState where
  messages : List Message
  streamData : Option (List JSONValue)
  loading : Bool
  error : Option Err
  input : String
  abortCtrl : Option Nat
  abortedCtrls : List Nat
  store : Store
deriving DecidableEq, Repr

/-- `mutate` from `useChat`: writes the message list to `store[key]` and to
the `messages` writable. -/
def mutate (key : String) (s : SessionState) (data : List Message) :
    SessionState :=
  { s with messages := data, store := storeSet s.store key data }

/-- `setMessages` from `useChat`: wholesale replacement via `mutate`. -/
def setMessages (key : String) (s : SessionState) (msgs : List Message) :
    SessionState :=
  mutate key s msgs

/-- `stop` from `useChat`: if a controller is held, abort it and null the
variable; otherwise do nothing. -/
def stop (s : SessionState) : SessionState :=
  match s.abortCtrl with
  | some c =>
      { s with abortedCtrls := c :: s.abortedCtrls, abortCtrl := none }
  | none => s

/-- The prologue of `triggerRequest` together with the first statement of
`getStreamedResponse`: clear the error writable, set loading, install a
fresh `AbortController` (the previous value is overwritten, not aborted),
then `mutate(chatRequest.messages)`. -/
def beginExchange (key : String) (ctrl : Nat) (req : ChatRequest)
    (s : SessionState) : SessionState :=
  mutate key
    { s with error := none, loading := true, abortCtrl := some ctrl }
    req.messages

/-- One `onUpdate(merged, data)` event delivered by the transport for an
exchange whose request history was `reqMsgs` and whose `existingData`
snapshot was `ed`. -/
structure StreamUpdate where
  merged : List Message
  data : Option (List JSONValue)
deriving DecidableEq, Repr

/-- The body of the `onUpdate` callback `getStreamedResponse` registers:
`mutate([...chatRequest.messages, ...merged])` and
`mutateStreamData([...(existingData || []), ...(data || [])])`.  The code
applies it unconditionally: nothing checks whether the exchange that
produced the event is still the current one. -/
def applyOnUpdate (key : String) (reqMsgs : List Message)
    (ed : Option (List JSONValue)) (u : StreamUpdate) (s : SessionState) :
    SessionState :=
  let s1 := mutate key s (reqMsgs ++ u.merged)
  { s1 with streamData := some (ed.getD [] ++ u.data.getD []) }

/-- All `onUpdate` events of one exchange, in arrival order. -/
def applyUpdates (key : String) (reqMsgs : List Message)
    (ed : Option (List JSONValue)) (us : List StreamUpdate)
    (s : SessionState) : SessionState :=
  us.foldl (fun st u => applyOnUpdate key reqMsgs ed u st) s

/-- How the transport concluded the exchange: resolved, or rejected with an
error (an abort surfaces as an `Err` named `"AbortError"`). -/
inductive Outcome where
  | success
  | failure (e : Err)
deriving DecidableEq, Repr

/-- The transport-visible transcript of one exchange: its mid-stream
`onUpdate` events and its final outcome.  Modelled from the spec: the
sources of `processChatStream` and `callChatApi` are not available; per the
specification, with no tool-interception hooks the stream is processed in a
single pass, and on any non-abort failure `callChatApi` invokes
`restoreMessagesOnFailure` before rethrowing, while an abort neither
restores nor rethrows as an ordinary error. -/
structure Exchange where
  updates : List StreamUpdate
  outcome : Outcome
deriving DecidableEq, Repr

/-- What a call of `triggerRequest` resolves with: `null` on success or
abort, `undefined` (the implicit fall-through return) on other failures. -/
inductive RetVal where
  | null
  | undefined
deriving DecidableEq, Repr

/-- Result of one `triggerRequest` call: the session state it leaves
behind, the value its promise resolves with, and the arguments of the
`onError` invocations it performed. -/
structure TRResult where
  state : SessionState
  ret : RetVal
  onErrorCalls : List Err
deriving DecidableEq, Repr

/-- `triggerRequest` from `useChat`.  `onErrorRegistered` records whether an
`onError` callback was supplied to `useChat`.  The body: clear the error,
set loading, install controller `ctrl`, snapshot `previousMessages` and
`existingData`, `mutate(chatRequest.messages)`, let the transport run the
exchange `ex`; on success null the controller and return null; on an
`AbortError` null the controller and return null; on any other failure the
transport has restored `previousMessages` (modelled from the spec, see
`Exchange`), then `onError` is invoked when registered and the error
writable is set, falling through with `undefined`; `finally` clears the
loading flag on every path. -/
def triggerRequest (onErrorRegistered : Bool) (key : String) (ctrl : Nat)
    (s : SessionState) (req : ChatRequest) (ex : Exchange) : TRResult :=
  let previousMessages := s.messages
  let existingData := s.streamData
  let s1 := beginExchange key ctrl req s
  let s2 := applyUpdates key req.messages existingData ex.updates s1
  match ex.outcome with
  | Outcome.success =>
      { state := { s2 with abortCtrl := none, loading := false }
        ret := RetVal.null
        onErrorCalls := [] }
  | Outcome.failure e =>
      if e.name = "AbortError" then
        { state := { s2 with abortCtrl := none, loading := false }
          ret := RetVal.null
          onErrorCalls := [] }
      else
        let s3 := mutate key s2 previousMessages
        { state := { s3 with error := some e, loading := false }
          ret := RetVal.undefined
          onErrorCalls := if onErrorRegistered then [e] else [] }

/-- `append` from `useChat`: assign a generated id when the message has
none, build the `ChatRequest` from the current messages plus the new one
and the passthrough options, and call `triggerRequest`. -/
def append (onErrorRegistered : Bool) (key : String) (ctrl : Nat)
    (genId : String) (s : SessionState) (msg : Message)
    (opts : ChatRequestOptions) (ex : Exchange) : TRResult :=
  let message := if msg.id = "" then { msg with id := genId } else msg
  triggerRequest onErrorRegistered key ctrl s
    { messages := s.messages ++ [message]
      options := opts.options
      functions := opts.functions
      function_call := opts.function_call
      tools := opts.tools
      tool_choice := opts.tool_choice } ex

/-- `reload` from `useChat`: return null on an empty conversation; if the
last message is an assistant message resubmit the history without it
(`slice(0, -1)`), otherwise resubmit the history unchanged. -/
def reload (onErrorRegistered : Bool) (key : String) (ctrl : Nat)
    (s : SessionState) (opts : ChatRequestOptions) (ex : Exchange) :
    TRResult :=
  let messagesSnapshot := s.messages
  if messagesSnapshot.length = 0 then
    { state := s, ret := RetVal.null, onErrorCalls := [] }
  else
    match messagesSnapshot.getLast? with
    | some lastMessage =>
        if lastMessage.role = "assistant" then
          triggerRequest onErrorRegistered key ctrl s
            { messages := messagesSnapshot.dropLast
              options := opts.options
              functions := opts.functions
              function_call := opts.function_call
              tools := opts.tools
              tool_choice := opts.tool_choice } ex
        else
          triggerRequest onErrorRegistered key ctrl s
            { messages := messagesSnapshot
              options := opts.options
              functions := opts.functions
              function_call := opts.function_call
              tools := opts.tools
              tool_choice := opts.tool_choice } ex
    | none =>
        { state := s, ret := RetVal.null, onErrorCalls := [] }

/-- The global module state of `use-chat.ts`: the cross-session `store`
and the `uniqueId` counter. -/
structure GlobalEnv where
  store : Store
  uniqueId : Nat
deriving DecidableEq, Repr

/-- The construction part of `useChat`: pick `chatId` (the given id or
`chat-<uniqueId++>`), form `key`, and create the writables —
`messages` is initialised from `initialMessages`. -/
def useChatInit (g : GlobalEnv) (api : String) (id : Option String)
    (initialMessages : List Message) (initialInput : String) :
    SessionState × GlobalEnv :=
  let chatId := match id with
    | some i => i
    | none => "chat-" ++ Nat.repr g.uniqueId
  let g1 := match id with
    | some _ => g
    | none => { g with uniqueId := g.uniqueId + 1 }
  let key := api ++ "|" ++ chatId
  let _ := key
  ({ messages := initialMessages
     streamData := none
     loading := false
     error := none
     input := initialInput
     abortCtrl := none
     abortedCtrls := []
     store := g1.store }, g1)

/-- The `"api|chatId"` key of a session constructed with the given
arguments, as formed on line `const key = api + '|' + chatId`. -/
def sessionKey (g : GlobalEnv) (api : String) (id : Option String) :
    String :=
  let chatId := match id with
    | some i => i
    | none => "chat-" ++ Nat.repr g.uniqueId
  api ++ "|" ++ chatId

/-- A message of the minimal outgoing payload built by
`getStreamedResponse` when `sendExtraMessageFields` is unset: only `role`,
`content`, `tool_call_id` and the conditionally spread `name`,
`function_call`, `tool_calls` — no `id`, no `createdAt`. -/
structure PayloadMessage where
  role : String
  content : String
  tool_call_id : Option String
  name : Option String
  function_call : Option String
  tool_calls : Option String
deriving DecidableEq, Repr

/-- The projection of one message in the minimal payload branch. -/
def projectMessage (m : Message) : PayloadMessage :=
  { role := m.role
    content := m.content
    tool_call_id := m.tool_call_id
    name := m.name
    function_call := m.function_call
    tool_calls := m.tool_calls }

/-- The `messages` field of the outgoing request body: either the full
message objects or their minimal projections. -/
inductive PayloadMessages where
  | full (msgs : List Message)
  | minimal (msgs : List PayloadMessage)
deriving DecidableEq, Repr

/-- `constructedMessagesPayload` from `getStreamedResponse`: the full
history when `sendExtraMessageFields` is set, the field-trimmed projection
otherwise. -/
def constructedMessagesPayload (sendExtraMessageFields : Bool)
    (msgs : List Message) : PayloadMessages :=
  if sendExtraMessageFields then PayloadMessages.full msgs
  else PayloadMessages.minimal (msgs.map projectMessage)

/-! ### Concrete example values, used by witnesses and counterexamples -/

/-- A finished user message. -/
def exUser : Message := { id := "u1", role := "user", content := "Hi" }

/-- A finished assistant message. -/
def exAsst : Message := { id := "a1", role := "assistant", content := "Hello!" }

/-- An idle session holding one user message. -/
def exState : SessionState :=
  { messages := [exUser]
    streamData := none
    loading := false
    error := none
    input := ""
    abortCtrl := none
    abortedCtrls := []
    store := [] }

/-- An idle session with an empty conversation. -/
def exEmpty : SessionState := { exState with messages := [] }

/-- A session with an exchange in flight on controller 5. -/
def exBusy : SessionState := { exState with abortCtrl := some 5 }

/-- A non-abort transport error. -/
def exErr : Err := { name := "TypeError", message := "Failed to fetch" }

/-- The abort error raised when the controller is aborted. -/
def exAbort : Err := { name := "AbortError", message := "The user aborted a request." }

/-! ### Helper lemmas -/

theorem applyUpdates_nil (key : String) (rm : List Message)
    (ed : Option (List JSONValue)) (s : SessionState) :
    applyUpdates key rm ed [] s = s := rfl

theorem applyUpdates_cons (key : String) (rm : List Message)
    (ed : Option (List JSONValue)) (u : StreamUpdate) (us : List StreamUpdate)
    (s : SessionState) :
    applyUpdates key rm ed (u :: us) s =
      applyUpdates key rm ed us (applyOnUpdate key rm ed u s) := rfl

theorem applyUpdates_error (key : String) (rm : List Message)
    (ed : Option (List JSONValue)) (us : List StreamUpdate) :
    ∀ s : SessionState, (applyUpdates key rm ed us s).error = s.error := by
  induction us with
  | nil => intro s; rfl
  | cons u us ih => intro s; exact ih (applyOnUpdate key rm ed u s)

theorem applyUpdates_messages (key : String) (rm : List Message)
    (ed : Option (List JSONValue)) (us : List StreamUpdate) :
    ∀ s : SessionState,
      (applyUpdates key rm ed us s).messages =
        match us.getLast? with
        | some u => rm ++ u.merged
        | none => s.messages := by
  induction us with
  | nil => intro s; rfl
  | cons u us ih =>
      intro s
      cases us with
      | nil => rfl
      | cons v vs =>
          rw [applyUpdates_cons, ih, List.getLast?_cons_cons]
          cases h : (v :: vs).getLast? with
          | none => rw [List.getLast?_eq_none_iff] at h; exact absurd h (by simp)
          | some w => rfl

theorem beginExchange_messages (key : String) (c : Nat) (req : ChatRequest)
    (s : SessionState) : (beginExchange key c req s).messages = req.messages := rfl

theorem beginExchange_error (key : String) (c : Nat) (req : ChatRequest)
    (s : SessionState) : (beginExchange key c req s).error = none := rfl

theorem triggerRequest_ret (oe : Bool) (key : String) (ctrl : Nat)
    (s : SessionState) (req : ChatRequest) (ex : Exchange) :
    (triggerRequest oe key ctrl s req ex).ret =
      match ex.outcome with
      | Outcome.success => RetVal.null
      | Outcome.failure e =>
          if e.name = "AbortError" then RetVal.null else RetVal.undefined := by
  unfold triggerRequest
  cases ex.outcome with
  | success => rfl
  | failure e =>
      by_cases he : e.name = "AbortError" <;> simp [he]

theorem triggerRequest_error (oe : Bool) (key : String) (ctrl : Nat)
    (s : SessionState) (req : ChatRequest) (ex : Exchange) :
    (triggerRequest oe key ctrl s req ex).state.error =
      match ex.outcome with
      | Outcome.success => none
      | Outcome.failure e =>
          if e.name = "AbortError" then none else some e := by
  unfold triggerRequest
  cases ex.outcome with
  | success =>
      simp only []
      exact (applyUpdates_error key req.messages s.streamData ex.updates
        (beginExchange key ctrl req s)).trans (beginExchange_error key ctrl req s)
  | failure e =>
      by_cases he : e.name = "AbortError"
      · simp only [he, if_pos rfl]
        exact (applyUpdates_error key req.messages s.streamData ex.updates
          (beginExchange key ctrl req s)).trans (beginExchange_error key ctrl req s)
      · simp [he]

/-! ### Claims -/

/-- C1: an exchange failing with a non-abort error leaves the conversation
restored to exactly the snapshot captured before the exchange began (the
same message list, hence same ids and content), sets the error observable
to the raised error, and invokes the registered `onError` with it. -/
theorem failure_restores_snapshot_and_sets_error (key : String) (ctrl : Nat)
    (s : SessionState) (req : ChatRequest) (ex : Exchange) (e : Err)
    (hfail : ex.outcome = Outcome.failure e)
    (habort : e.name ≠ "AbortError") :
    (triggerRequest true key ctrl s req ex).state.messages = s.messages ∧
    (triggerRequest true key ctrl s req ex).state.error = some e ∧
    (triggerRequest true key ctrl s req ex).onErrorCalls = [e] := by
  unfold triggerRequest
  rw [hfail]
  simp [habort, mutate]

/-- Witness for C1 at a concrete failing exchange. -/
theorem failure_restores_snapshot_and_sets_error_witness :
    (triggerRequest true "a|c" 0 exState
        { messages := [exUser, exAsst] }
        { updates := [{ merged := [exAsst], data := none }]
          outcome := Outcome.failure exErr }).state.messages = exState.messages ∧
    (triggerRequest true "a|c" 0 exState
        { messages := [exUser, exAsst] }
        { updates := [{ merged := [exAsst], data := none }]
          outcome := Outcome.failure exErr }).state.error = some exErr ∧
    (triggerRequest true "a|c" 0 exState
        { messages := [exUser, exAsst] }
        { updates := [{ merged := [exAsst], data := none }]
          outcome := Outcome.failure exErr }).onErrorCalls = [exErr] :=
  failure_restores_snapshot_and_sets_error "a|c" 0 exState
    { messages := [exUser, exAsst] }
    { updates := [{ merged := [exAsst], data := none }]
      outcome := Outcome.failure exErr } exErr rfl (by decide)

/-- C2 counterexample: with exchange A in flight on controller 0, starting
exchange B installs controller 1 without ever aborting controller 0 — the
superseded transport operation is not cancelled — and an `onUpdate` event
from A arriving after B has started still mutates the observable message
state. -/
theorem new_exchange_does_not_cancel_previous_cex :
    ((beginExchange "a|c" 0 { messages := [exUser] } exState).abortCtrl = some 0) ∧
    (0 ∉ (beginExchange "a|c" 1 { messages := [exUser] }
        (beginExchange "a|c" 0 { messages := [exUser] } exState)).abortedCtrls) ∧
    ((applyOnUpdate "a|c" [exUser] none { merged := [exAsst], data := none }
        (beginExchange "a|c" 1 { messages := [exUser] }
          (beginExchange "a|c" 0 { messages := [exUser] } exState))).messages ≠
      (beginExchange "a|c" 1 { messages := [exUser] }
        (beginExchange "a|c" 0 { messages := [exUser] } exState)).messages) := by
  decide

/-- C2 amended: starting a new exchange only replaces the session's abort
handle with a fresh one — it aborts nothing, so the superseded exchange's
transport operation keeps running and its `onUpdate` events, applied
unconditionally, still overwrite the observable message state whenever they
arrive; only `stop` aborts the held handle. -/
theorem new_exchange_replaces_handle_without_abort (key : String) (c : Nat)
    (req : ChatRequest) (s : SessionState) (base : List Message)
    (ed : Option (List JSONValue)) (u : StreamUpdate) :
    (beginExchange key c req s).abortedCtrls = s.abortedCtrls ∧
    (beginExchange key c req s).abortCtrl = some c ∧
    (applyOnUpdate key base ed u s).messages = base ++ u.merged := by
  exact ⟨rfl, rfl, rfl⟩

/-- C3 counterexample: the process-wide store maps the key `"api|c1"` to a
non-empty last-known message list, yet a session re-constructed with the
same `(api, id)` identity starts from `initialMessages` (here `[]`), not
from the stored list — no rehydration happens. -/
theorem construction_ignores_store_cex :
    storeGet (GlobalEnv.mk [("api|c1", [exUser])] 0).store "api|c1" =
      some [exUser] ∧
    sessionKey (GlobalEnv.mk [("api|c1", [exUser])] 0) "api" (some "c1") =
      "api|c1" ∧
    (useChatInit (GlobalEnv.mk [("api|c1", [exUser])] 0) "api" (some "c1")
        [] "").1.messages ≠ [exUser] := by
  decide

/-- C3 amended: every mutation of the conversation (all of which go through
`mutate`, including `setMessages`) records the new message list in the
process-wide mapping under the session's `"api|chatId"` key, but the
mapping is never read back: a session re-constructed with the same identity
is initialised from its `initialMessages` argument, not rehydrated from the
mapping. -/
theorem mutation_updates_store_but_no_rehydration :
    (∀ (key : String) (s : SessionState) (ms : List Message),
      storeGet (mutate key s ms).store key = some ms ∧
      (mutate key s ms).messages = ms ∧
      storeGet (setMessages key s ms).store key = some ms) ∧
    (∀ (g : GlobalEnv) (api : String) (id : Option String)
        (initialMessages : List Message) (initialInput : String),
      (useChatInit g api id initialMessages initialInput).1.messages =
        initialMessages) := by
  constructor
  · intro key s ms
    refine ⟨?_, rfl, ?_⟩ <;> simp [mutate, setMessages, storeGet, storeSet]
  · intro g api id initialMessages initialInput
    cases id <;> rfl

/-- C4: an exchange cancelled through the abort path (the error's name is
`AbortError`) resolves with null, never writes the error observable,
invokes no `onError`, and keeps the partial messages already applied by the
stream (the request history extended by the last `onUpdate` merge, with no
rollback to the pre-exchange snapshot). -/
theorem abort_resolves_silently (oe : Bool) (key : String) (ctrl : Nat)
    (s : SessionState) (req : ChatRequest) (ex : Exchange) (e : Err)
    (hfail : ex.outcome = Outcome.failure e)
    (habort : e.name = "AbortError") :
    (triggerRequest oe key ctrl s req ex).ret = RetVal.null ∧
    (triggerRequest oe key ctrl s req ex).state.error = none ∧
    (triggerRequest oe key ctrl s req ex).onErrorCalls = [] ∧
    (triggerRequest oe key ctrl s req ex).state.messages =
      (match ex.updates.getLast? with
       | some u => req.messages ++ u.merged
       | none => req.messages) := by
  have hmsg := applyUpdates_messages key req.messages s.streamData ex.updates
    (beginExchange key ctrl req s)
  have herr := applyUpdates_error key req.messages s.streamData ex.updates
    (beginExchange key ctrl req s)
  rw [beginExchange_messages] at hmsg
  rw [beginExchange_error] at herr
  unfold triggerRequest
  rw [hfail]
  simp only [habort, if_pos rfl]
  exact ⟨rfl, herr, rfl, hmsg⟩

/-- Witness for C4 at a concrete aborted exchange with one applied partial
update. -/
theorem abort_resolves_silently_witness :
    (triggerRequest true "a|c" 0 exState
        { messages := [exUser] }
        { updates := [{ merged := [exAsst], data := none }]
          outcome := Outcome.failure exAbort }).ret = RetVal.null ∧
    (triggerRequest true "a|c" 0 exState
        { messages := [exUser] }
        { updates := [{ merged := [exAsst], data := none }]
          outcome := Outcome.failure exAbort }).state.error = none ∧
    (triggerRequest true "a|c" 0 exState
        { messages := [exUser] }
        { updates := [{ merged := [exAsst], data := none }]
          outcome := Outcome.failure exAbort }).onErrorCalls = [] ∧
    (triggerRequest true "a|c" 0 exState
        { messages := [exUser] }
        { updates := [{ merged := [exAsst], data := none }]
          outcome := Outcome.failure exAbort }).state.messages =
      (match ([{ merged := [exAsst], data := none }] :
          List StreamUpdate).getLast? with
       | some u => [exUser] ++ u.merged
       | none => [exUser]) :=
  abort_resolves_silently true "a|c" 0 exState
    { messages := [exUser] }
    { updates := [{ merged := [exAsst], data := none }]
      outcome := Outcome.failure exAbort } exAbort rfl rfl

/-- C5: every exchange begins by clearing the prior error observable and
raising the loading observable, and every termination path of
`triggerRequest` — success, abort, or failure — lowers the loading
observable again in the `finally` step. -/
theorem loading_lifecycle (oe : Bool) (key : String) (ctrl : Nat)
    (s : SessionState) (req : ChatRequest) (ex : Exchange) :
    (beginExchange key ctrl req s).error = none ∧
    (beginExchange key ctrl req s).loading = true ∧
    (triggerRequest oe key ctrl s req ex).state.loading = false := by
  refine ⟨rfl, rfl, ?_⟩
  unfold triggerRequest
  cases ex.outcome with
  | success => rfl
  | failure e => by_cases he : e.name = "AbortError" <;> simp [he]

/-- C6: on a non-empty conversation whose last message is `m`, `reload`
resubmits the history with exactly that last message removed when `m` is an
assistant message (the submitted `dropLast` satisfies
`dropLast ++ [m] = messages`), and resubmits the current history unchanged
— same messages, same order, same ids — otherwise. -/
theorem reload_resubmission (oe : Bool) (key : String) (ctrl : Nat)
    (s : SessionState) (opts : ChatRequestOptions) (ex : Exchange)
    (m : Message) (hlast : s.messages.getLast? = some m) :
    s.messages.dropLast ++ [m] = s.messages ∧
    (m.role = "assistant" →
      reload oe key ctrl s opts ex =
        triggerRequest oe key ctrl s
          { messages := s.messages.dropLast
            options := opts.options
            functions := opts.functions
            function_call := opts.function_call
            tools := opts.tools
            tool_choice := opts.tool_choice } ex) ∧
    (m.role ≠ "assistant" →
      reload oe key ctrl s opts ex =
        triggerRequest oe key ctrl s
          { messages := s.messages
            options := opts.options
            functions := opts.functions
            function_call := opts.function_call
            tools := opts.tools
            tool_choice := opts.tool_choice } ex) := by
  have hne : s.messages ≠ [] := by
    intro h0
    rw [h0] at hlast
    exact Option.noConfusion hlast
  have hlen : ¬ s.messages.length = 0 := by
    simpa [List.length_eq_zero] using hne
  refine ⟨List.dropLast_append_getLast? m (Option.mem_def.mpr hlast), ?_, ?_⟩
  · intro hrole
    simp [reload, hlen, hlast, hrole]
  · intro hrole
    simp [reload, hlen, hlast, hrole]

/-- Witness for C6: reloading a conversation ending in an assistant message
submits the history without it. -/
theorem reload_resubmission_witness :
    [exUser, exAsst].dropLast ++ [exAsst] = [exUser, exAsst] ∧
    reload true "a|c" 0 { exState with messages := [exUser, exAsst] }
        {} { updates := [], outcome := Outcome.success } =
      triggerRequest true "a|c" 0
        { exState with messages := [exUser, exAsst] }
        { messages := [exUser, exAsst].dropLast
          options := none
          functions := none
          function_call := none
          tools := none
          tool_choice := none }
        { updates := [], outcome := Outcome.success } :=
  ⟨(reload_resubmission true "a|c" 0
      { exState with messages := [exUser, exAsst] } {}
      { updates := [], outcome := Outcome.success } exAsst rfl).1,
   (reload_resubmission true "a|c" 0
      { exState with messages := [exUser, exAsst] } {}
      { updates := [], outcome := Outcome.success } exAsst rfl).2.1 rfl⟩

/-- C7: when `sendExtraMessageFields` is unset, the payload keeps the
number and order of messages and each payload message holds exactly the
source message's role, content, name, function_call, tool_calls and
tool_call_id; the projection is independent of id and createdAt (they are
dropped, the payload type has no such fields); when the flag is set the
messages are sent in full. -/
theorem payload_projection :
    (∀ msgs : List Message,
      constructedMessagesPayload true msgs = PayloadMessages.full msgs) ∧
    (∀ msgs : List Message,
      constructedMessagesPayload false msgs =
        PayloadMessages.minimal (msgs.map projectMessage)) ∧
    (∀ msgs : List Message,
      (msgs.map projectMessage).length = msgs.length) ∧
    (∀ m : Message,
      (projectMessage m).role = m.role ∧
      (projectMessage m).content = m.content ∧
      (projectMessage m).name = m.name ∧
      (projectMessage m).function_call = m.function_call ∧
      (projectMessage m).tool_calls = m.tool_calls ∧
      (projectMessage m).tool_call_id = m.tool_call_id) ∧
    (∀ (m : Message) (i : String) (ts : Option Nat),
      projectMessage { m with id := i, createdAt := ts } = projectMessage m) := by
  refine ⟨fun msgs => rfl, fun msgs => rfl, fun msgs => ?_,
    fun m => ⟨rfl, rfl, rfl, rfl, rfl, rfl⟩, fun m i ts => rfl⟩
  exact List.length_map msgs projectMessage

/-- C8: `stop` aborts the held controller when an exchange is in flight and
clears the handle; with no exchange in flight it is the identity on the
whole session state (all observables unchanged), hence a second `stop` in a
row changes nothing. -/
theorem stop_cancels_and_idempotent (s : SessionState) :
    (∀ c : Nat, s.abortCtrl = some c →
      c ∈ (stop s).abortedCtrls ∧ (stop s).abortCtrl = none) ∧
    (s.abortCtrl = none → stop s = s) ∧
    stop (stop s) = stop s := by
  refine ⟨?_, ?_, ?_⟩ <;> cases h : s.abortCtrl <;> simp [stop, h]

/-- Witness for C8: stopping a session holding controller 5 aborts it, and
stopping an idle session is the identity. -/
theorem stop_cancels_and_idempotent_witness :
    (5 ∈ (stop exBusy).abortedCtrls ∧ (stop exBusy).abortCtrl = none) ∧
    stop exState = exState :=
  ⟨(stop_cancels_and_idempotent exBusy).1 5 rfl,
   (stop_cancels_and_idempotent exState).2.1 rfl⟩

/-- C9: `reload` on an empty conversation resolves with null, performs no
exchange and leaves the entire session state — messages, loading, error and
all — untouched, with no `onError` invocation. -/
theorem reload_empty_noop (oe : Bool) (key : String) (ctrl : Nat)
    (s : SessionState) (opts : ChatRequestOptions) (ex : Exchange)
    (h : s.messages = []) :
    reload oe key ctrl s opts ex =
      { state := s, ret := RetVal.null, onErrorCalls := [] } := by
  simp [reload, h]

/-- Witness for C9 on a concrete empty conversation. -/
theorem reload_empty_noop_witness :
    reload true "a|c" 0 exEmpty {}
        { updates := [], outcome := Outcome.failure exErr } =
      { state := exEmpty, ret := RetVal.null, onErrorCalls := [] } :=
  reload_empty_noop true "a|c" 0 exEmpty {}
    { updates := [], outcome := Outcome.failure exErr } rfl

/-- C10: `append` and `reload` always resolve, never reject: the resolved
value is null on success and on abort and undefined on any other failure
(in which case the error lands in the error observable instead of
propagating), and `reload` on an empty conversation resolves with null. -/
theorem append_reload_never_reject (oe : Bool) (key : String) (ctrl : Nat)
    (genId : String) (s : SessionState) (msg : Message)
    (opts : ChatRequestOptions) (ex : Exchange) :
    (append oe key ctrl genId s msg opts ex).ret =
      (match ex.outcome with
       | Outcome.success => RetVal.null
       | Outcome.failure e =>
           if e.name = "AbortError" then RetVal.null else RetVal.undefined) ∧
    (append oe key ctrl genId s msg opts ex).state.error =
      (match ex.outcome with
       | Outcome.success => none
       | Outcome.failure e =>
           if e.name = "AbortError" then none else some e) ∧
    (reload oe key ctrl s opts ex).ret =
      (if s.messages.length = 0 then RetVal.null
       else match ex.outcome with
       | Outcome.success => RetVal.null
       | Outcome.failure e =>
           if e.name = "AbortError" then RetVal.null else RetVal.undefined) := by
  refine ⟨triggerRequest_ret oe key ctrl s _ ex,
    triggerRequest_error oe key ctrl s _ ex, ?_⟩
  by_cases h0 : s.messages.length = 0
  · simp [reload, h0]
  · rw [if_neg h0]
    have hne : s.messages ≠ [] := by
      simpa [List.length_eq_zero] using h0
    match hl : s.messages.getLast? with
    | none =>
        rw [List.getLast?_eq_none_iff] at hl
        exact absurd hl hne
    | some m =>
        by_cases hrole : m.role = "assistant" <;>
          simp [reload, h0, hl, hrole, triggerRequest_ret]

end UseChat
